import Mathlib

/-!
Shallow embedding of the per-user Telegram session lifecycle implemented in
server/websocket/telegram.js (the confirmation-based flow: the second of the
two module versions in the repository, lines 246-737 of the concatenated
source). The model is per user: all socket handlers in the source close over
one userId, the shared maps are keyed by that userId, and distinct users
never interact. Node runs every callback / resumed continuation to
completion, so each asynchronous resumption of the requestConfirmation
handler, each timer callback and each socket event handler is one atomic
step of the model.
-/

/-- One row of the Channel collection for the user:
Channel.create / findOne fields used by the module. -/
structure ChannelRec where
  channelId : String
  title : String
  enabled : Bool
  deriving DecidableEq, Repr

/-- State of one TelegramClient instance created by the module: its
connected flag and the list of message handlers added by addEventHandler
(each handler is represented by the snapshot of enabled channels it closed
over, which fully determines its behaviour). -/
structure ClientState where
  connected : Bool
  handlers : List (List ChannelRec)
  deriving DecidableEq, Repr, Inhabited

/-- The durable User row fields touched by the module
(User.findByIdAndUpdate / findById). -/
structure UserRecord where
  telegramSession : Option String
  telegramConnected : Bool
  telegramPhone : Option String
  deriving DecidableEq, Repr

/-- One value of the userClients map: the client reference (an index into
the allocated-clients table), the sessionString field when present, the
startTime field when present, and the phoneNumber field when present. -/
structure ClientData where
  client : Nat
  sessionString : Option String
  startTime : Option Nat
  phoneNumber : Option String
  deriving DecidableEq, Repr

/-- Closure state of one requestConfirmation handler invocation: the client
it created, its loginCompleted flag, and whether its 120 s setTimeout is
still scheduled (clearTimeout or firing makes it inactive). -/
structure Attempt where
  clientId : Nat
  loginCompleted : Bool
  timerActive : Bool
  phone : String
  deriving DecidableEq, Repr

/-- Observable events: socket.emit calls on the outbound channel plus
processSignal invocations, in chronological order. -/
inductive TEvent where
  | confirmationSent
  | loginSuccess
  | loginTimeout
  | loginCancelled
  | errEvent (msg : String)
  | restoredOk
  | notConnected
  | sessionExpired
  | channelSubscribed (channelId title : String)
  | channelUnsubscribed (channelId : String)
  | disconnectedEv
  | signalReceived (channelId channelTitle message : String)
  | procCall (channelId message : String)
  deriving DecidableEq, Repr

/-- Whole per-user server state: the userClients entry for this user, the
table of TelegramClient instances created so far (client reference = index),
the durable User row, the Channel collection rows, the closure states of the
requestConfirmation invocations so far, the observable trace, and the clock
(Date.now in ms). -/
structure ServerState where
  registry : Option ClientData
  clients : List ClientState
  store : UserRecord
  channelsDB : List ChannelRec
  attempts : List Attempt
  trace : List TEvent
  time : Nat
  deriving DecidableEq, Repr

def emit (e : TEvent) (s : ServerState) : ServerState :=
  { s with trace := s.trace ++ [e] }

def getClient (s : ServerState) (i : Nat) : ClientState :=
  s.clients.getD i default

def updClient (s : ServerState) (i : Nat) (f : ClientState → ClientState) :
    ServerState :=
  { s with clients := s.clients.set i (f (getClient s i)) }

/-- client.disconnect(): the connected flag drops. -/
def disconnectClient (s : ServerState) (i : Nat) : ServerState :=
  updClient s i (fun c => { c with connected := false })

def setAttempt (s : ServerState) (i : Nat) (a : Attempt) : ServerState :=
  { s with attempts := s.attempts.set i a }

/-- Character-list prefix test, used by the substring test below. -/
def charsStartWith (needle hay : List Char) : Bool :=
  match needle, hay with
  | [], _ => true
  | _ :: _, [] => false
  | a :: n, b :: h => a == b && charsStartWith n h

/-- Character-list substring test. -/
def charsHaveSub (needle hay : List Char) : Bool :=
  charsStartWith needle hay ||
    match hay with
    | [] => false
    | _ :: t => charsHaveSub needle t

/-- JavaScript error.message.includes(needle). -/
def strContains (hay needle : String) : Bool :=
  charsHaveSub needle.data hay.data

/-- The session string client.session.save() returns for a given client
instance (opaque; distinct per client). -/
def sessionTokenOf (i : Nat) : String :=
  "session" ++ toString i

/-- startChannelListeners(userId, client, socket), lines 652-717:
removeEventHandler() clears the handlers, Channel.find loads the enabled
rows, and when that list is nonempty one addEventHandler call installs a
single handler closing over the loaded snapshot. When the list is empty the
function returns right after the removal, installing nothing. -/
def startChannelListeners (s : ServerState) (i : Nat) : ServerState :=
  let chans := s.channelsDB.filter (fun c => c.enabled)
  updClient s i (fun c =>
    { c with handlers := if chans.isEmpty then [] else [chans] })

/-- telegram:requestConfirmation handler, lines 263-409, synchronous part up
to the await of loginPromise: a new client is created and connected,
client.start begins (loginCompleted = false), the userClients entry is
overwritten with the new client plus phoneNumber and startTime,
confirmationSent is emitted and the 120 s loginTimeout timer is scheduled. -/
def requestConfirmation (s : ServerState) (phone : String) : ServerState :=
  let cid := s.clients.length
  let s1 := { s with clients :=
      s.clients ++ [({ connected := true, handlers := [] } : ClientState)] }
  let s2 := { s1 with registry := some (
      { client := cid, sessionString := none,
        startTime := some s.time, phoneNumber := some phone } : ClientData) }
  let s3 := emit .confirmationSent s2
  { s3 with attempts := s3.attempts ++
      [{ clientId := cid, loginCompleted := false,
         timerActive := true, phone := phone }] }

/-- The loginTimeout setTimeout callback of attempt i, lines 329-340: runs
only if its timer is still scheduled; when the closure flag loginCompleted
is still false it sets the flag, emits loginTimeout, and then disconnects
and deletes whatever userClients entry is current for the user. -/
def timerFire (s : ServerState) (i : Nat) : ServerState :=
  match s.attempts.get? i with
  | none => s
  | some a =>
    if a.timerActive then
      let s1 := setAttempt s i { a with timerActive := false }
      if a.loginCompleted then s1
      else
        let s2 := setAttempt s1 i
          { a with timerActive := false, loginCompleted := true }
        let s3 := emit .loginTimeout s2
        match s3.registry with
        | none => s3
        | some cd => { (disconnectClient s3 cd.client) with registry := none }
    else s

/-- The outer catch of the requestConfirmation handler, lines 384-408:
disconnect and delete the current userClients entry, classify the error
message by substring, and emit telegram:error with the classified text. -/
def errorMessageFor (msg : String) : String :=
  if strContains msg "PHONE_NUMBER_INVALID" then
    "Invalid phone number. Please check and try again."
  else if strContains msg "PHONE_NUMBER_BANNED" then
    "This phone number is banned from Telegram."
  else if strContains msg "PHONE_CODE_EXPIRED" then
    "Confirmation expired. Please try again."
  else if strContains msg "network" then
    "Network error. Please check your connection."
  else "Failed to send confirmation"

def confirmFailCleanup (s : ServerState) (msg : String) : ServerState :=
  let s1 := match s.registry with
    | some cd => { (disconnectClient s cd.client) with registry := none }
    | none => s
  emit (.errEvent (errorMessageFor msg)) s1

/-- Resumption of attempt i after its loginPromise resolves (the provider
confirmed), lines 343-370: set loginCompleted, clearTimeout; if the
own client of the attempt is no longer connected, throw — reaching the outer
catch. Otherwise save the session string, persist it with
telegramConnected / telegramPhone on the User row, overwrite the
userClients entry with the client and sessionString, emit loginSuccess and
rebind the channel listeners. -/
def confirmResolve (s : ServerState) (i : Nat) : ServerState :=
  match s.attempts.get? i with
  | none => s
  | some a =>
    let s1 := setAttempt s i
      { a with loginCompleted := true, timerActive := false }
    if (getClient s1 a.clientId).connected then
      let tok := sessionTokenOf a.clientId
      let s2 := { s1 with store :=
          { telegramSession := some tok, telegramConnected := true,
            telegramPhone := some a.phone } }
      let s3 := { s2 with registry := some (
          { client := a.clientId, sessionString := some tok,
            startTime := none, phoneNumber := none } : ClientData) }
      let s4 := emit .loginSuccess s3
      startChannelListeners s4 a.clientId
    else
      confirmFailCleanup s1 "Client disconnected during login"

/-- Resumption of attempt i after its loginPromise rejects with the given
message, lines 371-382: set loginCompleted, clearTimeout; a message
containing CANCELLED or cancel emits loginCancelled, anything else rethrows
into the outer catch. -/
def confirmReject (s : ServerState) (i : Nat) (msg : String) : ServerState :=
  match s.attempts.get? i with
  | none => s
  | some a =>
    let s1 := setAttempt s i
      { a with loginCompleted := true, timerActive := false }
    if strContains msg "CANCELLED" || strContains msg "cancel" then
      emit .loginCancelled s1
    else
      confirmFailCleanup s1 msg

/-- telegram:cancelLogin handler, lines 414-425: when a userClients entry
exists, disconnect its client and delete the entry. Nothing else: no emit,
no timer interaction, no flag change. -/
def cancelLogin (s : ServerState) : ServerState :=
  match s.registry with
  | some cd => { (disconnectClient s cd.client) with registry := none }
  | none => s

/-- The part of telegram:restore after the in-memory short-circuit misses,
lines 446-473 plus the catch 475-485: create a client from the saved
session and connect it (connectOk); a connect failure reaches the catch,
which clears the User row and emits sessionExpired. checkAuthorization
(authOk) false clears the User row and emits sessionExpired. Otherwise the
userClients entry is written, restored is emitted and listeners rebound. -/
def restoreFresh (s : ServerState) (tok : String)
    (connectOk authOk : Bool) : ServerState :=
  let cid := s.clients.length
  let s1 := { s with clients :=
      s.clients ++ [({ connected := connectOk, handlers := [] } : ClientState)] }
  if !connectOk then
    let s2 := { s1 with store :=
        { s1.store with telegramConnected := false, telegramSession := none } }
    emit .sessionExpired s2
  else if !authOk then
    let s2 := { s1 with store :=
        { s1.store with telegramConnected := false, telegramSession := none } }
    emit .sessionExpired s2
  else
    let s2 := { s1 with registry := some (
        { client := cid, sessionString := some tok,
          startTime := none, phoneNumber := none } : ClientData) }
    let s3 := emit .restoredOk s2
    startChannelListeners s3 cid

/-- telegram:restore handler, lines 430-486: no saved session emits
notConnected; an existing userClients entry whose client is connected
short-circuits to emitting restored and rebinding listeners, opening no
second connection; otherwise restoreFresh runs. -/
def restoreSession (s : ServerState) (connectOk authOk : Bool) : ServerState :=
  match s.store.telegramSession with
  | none => emit .notConnected s
  | some tok =>
    match s.registry with
    | some cd =>
      if (getClient s cd.client).connected then
        let s1 := emit .restoredOk s
        startChannelListeners s1 cd.client
      else restoreFresh s tok connectOk authOk
    | none => restoreFresh s tok connectOk authOk

def setEnabled (db : List ChannelRec) (channelId : String) (b : Bool) :
    List ChannelRec :=
  db.map (fun c => if c.channelId == channelId then { c with enabled := b } else c)

def rebindIfClient (s : ServerState) : ServerState :=
  match s.registry with
  | some cd => startChannelListeners s cd.client
  | none => s

/-- telegram:subscribeChannel handler, lines 527-575: an existing disabled
row is re-enabled, an existing enabled row returns an error without
reaching the rebind, a missing row is created; in the non-error paths
channelSubscribed is emitted and, when a userClients entry exists, the
listeners are restarted. -/
def subscribeChannel (s : ServerState) (channelId title : String) :
    ServerState :=
  match s.channelsDB.find? (fun c => c.channelId == channelId) with
  | some ex =>
    if !ex.enabled then
      let s1 := { s with channelsDB := setEnabled s.channelsDB channelId true }
      let s2 := emit (.channelSubscribed channelId title) s1
      rebindIfClient s2
    else
      emit (.errEvent "Already subscribed to this channel") s
  | none =>
    let s1 := { s with channelsDB := s.channelsDB ++
        [{ channelId := channelId, title := title, enabled := true }] }
    let s2 := emit (.channelSubscribed channelId title) s1
    rebindIfClient s2

/-- telegram:unsubscribeChannel handler, lines 580-602: a missing row emits
an error; otherwise enabled is set false and channelUnsubscribed emitted.
The handler never calls startChannelListeners. -/
def unsubscribeChannel (s : ServerState) (channelId : String) : ServerState :=
  match s.channelsDB.find? (fun c => c.channelId == channelId) with
  | none => emit (.errEvent "Channel not found") s
  | some _ =>
    let s1 := { s with channelsDB := setEnabled s.channelsDB channelId false }
    emit (.channelUnsubscribed channelId) s1

/-- telegram:disconnect handler, lines 607-625: disconnect and delete the
userClients entry when present, set telegramConnected false on the User row
(telegramSession is left as it is), emit disconnected. -/
def telegramDisconnect (s : ServerState) : ServerState :=
  let s1 := match s.registry with
    | some cd => { (disconnectClient s cd.client) with registry := none }
    | none => s
  let s2 := { s1 with store := { s1.store with telegramConnected := false } }
  emit .disconnectedEv s2

/-- The socket disconnect handler, lines 630-634: the body only logs, so the
server state is untouched. -/
def socketDisconnectHandler (s : ServerState) : ServerState := s

/-- Body of one message handler installed by startChannelListeners, lines
666-705, run on one inbound event: guard on chatId and message text, look
the chat id up in the snapshot the handler closed over, and on a match emit
signalReceived first and then invoke processSignal. The whole body sits in
a try/catch whose catch only logs, so a rejected processSignal promise
(procFails) changes nothing further. -/
def handleIncoming (s : ServerState) (snapshot : List ChannelRec)
    (chatId text : String) (procFails : Bool) : ServerState :=
  if chatId == "" then s
  else
    match snapshot.find? (fun c => c.channelId == chatId) with
    | none => s
    | some ch =>
      if text == "" then s
      else
        let s1 := emit (.signalReceived ch.channelId ch.title text) s
        let s2 := emit (.procCall ch.channelId text) s1
        match procFails with
        | true => s2
        | false => s2

/-- An inbound Telegram event on client cid: every handler currently added
on that client runs on it, in registration order. -/
def msgArrive (s : ServerState) (cid : Nat) (chatId text : String)
    (procFails : Bool) : ServerState :=
  (getClient s cid).handlers.foldl
    (fun st snap => handleIncoming st snap chatId text procFails) s

/-- The TIMEOUT constant of cleanupInactiveClients, line 722: ten minutes. -/
def CLEANUP_TIMEOUT_MS : Nat := 10 * 60 * 1000

/-- The setInterval period for cleanupInactiveClients, line 737. -/
def CLEANUP_INTERVAL_MS : Nat := 5 * 60 * 1000

/-- The per-entry purge condition of cleanupInactiveClients, lines 724-732:
a startTime is present, more than TIMEOUT ms have elapsed, and the entry
has no sessionString. -/
def cleanupPurges (now : Nat) (cd : ClientData) : Bool :=
  match cd.startTime with
  | some t => now - t > CLEANUP_TIMEOUT_MS && cd.sessionString.isNone
  | none => false

/-- cleanupInactiveClients, lines 720-734, over the whole userClients map:
every entry meeting the purge condition has its client disconnected and is
deleted; the function emits nothing on any socket. The second component is
the (empty) list of events the sweep emits. -/
def cleanupInactiveClients (now : Nat) (m : List (String × ClientData)) :
    List (String × ClientData) × List TEvent :=
  match m with
  | [] => ([], [])
  | p :: rest =>
    let r := cleanupInactiveClients now rest
    if cleanupPurges now p.2 then r else (p :: r.1, r.2)

/-- The per-user socket events and asynchronous resumptions, each one
atomic step of the Node event loop. -/
inductive Act where
  | reqConfirm (phone : String)
  | timer (i : Nat)
  | confirmOk (i : Nat)
  | confirmErr (i : Nat) (msg : String)
  | cancel
  | restoreReq (connectOk authOk : Bool)
  | subscribe (channelId title : String)
  | unsubscribe (channelId : String)
  | tgDisconnect
  | wsDisconnect
  | message (cid : Nat) (chatId text : String) (procFails : Bool)
  | tick (n : Nat)
  deriving DecidableEq, Repr

def step (s : ServerState) (a : Act) : ServerState :=
  match a with
  | .reqConfirm phone => requestConfirmation s phone
  | .timer i => timerFire s i
  | .confirmOk i => confirmResolve s i
  | .confirmErr i msg => confirmReject s i msg
  | .cancel => cancelLogin s
  | .restoreReq cOk aOk => restoreSession s cOk aOk
  | .subscribe cid t => subscribeChannel s cid t
  | .unsubscribe cid => unsubscribeChannel s cid
  | .tgDisconnect => telegramDisconnect s
  | .wsDisconnect => socketDisconnectHandler s
  | .message cid chat text f => msgArrive s cid chat text f
  | .tick n => { s with time := s.time + n }

def run (s : ServerState) (acts : List Act) : ServerState :=
  acts.foldl step s

def initState (store : UserRecord) (db : List ChannelRec) : ServerState :=
  { registry := none, clients := [], store := store, channelsDB := db,
    attempts := [], trace := [], time := 0 }

def emptyStore : UserRecord :=
  { telegramSession := none, telegramConnected := false, telegramPhone := none }

/-!
Claim theorems. Each run below starts from initState (fresh process, empty
userClients map) unless a richer state is spelled out.
-/

/-- C1 counterexample: two requestConfirmation calls for the same user, then
the provider confirmation of the FIRST attempt arrives. The claim says the
stale confirmation is fenced out and produces no loginSuccess, no persisted
token and no registry mutation; the code has no fencing, so the stale
confirmation emits loginSuccess after the second attempt started, persists
the token of the first client (with the first phone number) and overwrites
the registry entry with the first client. -/
theorem c1_counterexample :
    (let r := run (initState emptyStore [])
      [.reqConfirm "p1", .reqConfirm "p2", .confirmOk 0]
     r.trace = [.confirmationSent, .confirmationSent, .loginSuccess]
     ∧ r.store.telegramSession = some (sessionTokenOf 0)
     ∧ r.store.telegramPhone = some "p1"
     ∧ r.registry = some ⟨0, some (sessionTokenOf 0), none, none⟩) :=
  ⟨rfl, rfl, rfl, rfl⟩

/-- C1, amended: a second requestConfirmation while one is pending only
overwrites the userClients entry with the new client; nothing fences the
first attempt. A confirmation of the first attempt arriving after the
second started still emits loginSuccess, persists the token of the first
client and overwrites the registry entry with the first client; the timer
of the first attempt, when it fires uncompleted, emits loginTimeout and
disconnects and deletes the CURRENT registry entry — the client of the
second attempt. -/
theorem c1_supersession_unfenced :
    (let r2 := run (initState emptyStore []) [.reqConfirm "p1", .reqConfirm "p2"]
     r2.registry = some ⟨1, none, some 0, some "p2"⟩
     ∧ r2.clients = [⟨true, []⟩, ⟨true, []⟩])
    ∧ (let r := run (initState emptyStore [])
        [.reqConfirm "p1", .reqConfirm "p2", .confirmOk 0]
       r.trace = [.confirmationSent, .confirmationSent, .loginSuccess]
       ∧ r.store.telegramSession = some (sessionTokenOf 0)
       ∧ r.registry = some ⟨0, some (sessionTokenOf 0), none, none⟩)
    ∧ (let r := run (initState emptyStore [])
        [.reqConfirm "p1", .reqConfirm "p2", .timer 0]
       r.trace = [.confirmationSent, .confirmationSent, .loginTimeout]
       ∧ r.registry = none
       ∧ r.clients = [⟨true, []⟩, ⟨false, []⟩]) :=
  ⟨⟨rfl, rfl⟩, ⟨rfl, rfl, rfl⟩, ⟨rfl, rfl, rfl⟩⟩

/-- C2: for one login attempt, the provider confirmation and the 120 s
timeout resolve to exactly one terminal outcome in either arrival order.
Confirmation first: loginSuccess, token persisted, registry updated, the
timer cleared, and the later timer event is a no-op. Timer first:
loginTimeout, client disconnected, registry entry removed, no token, and
the later confirmation resumption takes the disconnected-client error path
and never emits loginSuccess. Generic in the initial User row and Channel
rows. -/
theorem c2_attempt_race_exclusive :
    ∀ (st : UserRecord) (cs : List ChannelRec),
      (let r := run (initState st cs) [.reqConfirm "p", .confirmOk 0, .timer 0]
       r.trace = [.confirmationSent, .loginSuccess]
       ∧ r.store.telegramSession = some (sessionTokenOf 0)
       ∧ r.registry = some ⟨0, some (sessionTokenOf 0), none, none⟩
       ∧ r.attempts = [⟨0, true, false, "p"⟩])
      ∧ (let r := run (initState st cs) [.reqConfirm "p", .timer 0, .confirmOk 0]
         r.trace = [.confirmationSent, .loginTimeout,
                    .errEvent "Failed to send confirmation"]
         ∧ r.store = st
         ∧ r.registry = none
         ∧ getClient r 0 = ⟨false, []⟩) :=
  fun _ _ => ⟨⟨rfl, rfl, rfl, rfl⟩, ⟨rfl, rfl, rfl, rfl⟩⟩

/-- C3: code_bug record. After subscribeChannel("100","Alpha") rebinds the
listener, unsubscribeChannel("100") disables the row and emits
channelUnsubscribed but never calls startChannelListeners, so the installed
handler still closes over the old snapshot in which the channel is enabled.
The next inbound message for chat id "100" is therefore still dispatched:
signalReceived is emitted and processSignal invoked after the unsubscribe,
while the spec (Scenario D, dispatch gating) requires no dispatch. -/
theorem c3_stale_snapshot_dispatch :
    (let r := run (initState emptyStore [])
      [.reqConfirm "p", .confirmOk 0, .subscribe "100" "Alpha",
       .unsubscribe "100", .message 0 "100" "buy gold" false]
     r.trace = [.confirmationSent, .loginSuccess,
                .channelSubscribed "100" "Alpha", .channelUnsubscribed "100",
                .signalReceived "100" "Alpha" "buy gold",
                .procCall "100" "buy gold"]
     ∧ r.channelsDB = [⟨"100", "Alpha", false⟩]
     ∧ (getClient r 0).handlers = [[⟨"100", "Alpha", true⟩]]) :=
  ⟨rfl, rfl, rfl⟩

/-- C4 counterexample: a user with a persisted token and no enabled
subscriptions runs one restore. The restore succeeds and leaves a live
client in the registry, but startChannelListeners installs nothing when the
enabled channel list is empty, so the live client carries ZERO message
handlers — the claim says exactly one, never zero. -/
theorem c4_counterexample :
    (let r := run (initState ⟨some "tok", true, none⟩ [])
      [.restoreReq true true]
     r.trace = [.restoredOk]
     ∧ r.registry = some ⟨0, some "tok", none, none⟩
     ∧ (getClient r 0).connected = true
     ∧ (getClient r 0).handlers = []) :=
  ⟨rfl, rfl, rfl, rfl⟩

/-- C5: restore behaviour, generic in the persisted token and the Channel
rows. (a) A persisted token with valid authorization yields restored, a
registry entry holding the token, and listeners rebound to the current
enabled snapshot, with no confirmation prompt. (b) No persisted token
yields notConnected and no client is opened. (c) Invalid authorization
clears the persisted token and yields sessionExpired. (d) An in-memory
connected client short-circuits: restored is emitted and no second client
is created. (e) Round trip: the token persisted by a confirmed login in
one process, fed to restore in a fresh process, yields restored with a
registry entry holding that token and no new confirmation prompt. -/
theorem c5_restore_round_trip :
    ∀ (t : String) (cs : List ChannelRec),
      (let r := run (initState ⟨some t, true, none⟩ cs) [.restoreReq true true]
       r.trace = [.restoredOk]
       ∧ r.registry = some ⟨0, some t, none, none⟩
       ∧ (getClient r 0).handlers =
           (if (cs.filter (fun c => c.enabled)).isEmpty then []
            else [cs.filter (fun c => c.enabled)]))
      ∧ (let r := run (initState ⟨none, false, none⟩ cs) [.restoreReq true true]
         r.trace = [.notConnected] ∧ r.registry = none ∧ r.clients = [])
      ∧ (let r := run (initState ⟨some t, true, none⟩ cs) [.restoreReq true false]
         r.trace = [.sessionExpired]
         ∧ r.store = ⟨none, false, none⟩ ∧ r.registry = none)
      ∧ (let s : ServerState :=
           { registry := some ⟨0, some t, none, none⟩,
             clients := [⟨true, []⟩],
             store := ⟨some t, true, none⟩, channelsDB := cs,
             attempts := [], trace := [], time := 0 }
         let r := run s [.restoreReq false false]
         r.trace = [.restoredOk] ∧ r.clients.length = 1
         ∧ r.registry = some ⟨0, some t, none, none⟩)
      ∧ (let p1 := run (initState emptyStore cs) [.reqConfirm "p", .confirmOk 0]
         let p2 := run (initState p1.store p1.channelsDB) [.restoreReq true true]
         p2.trace = [.restoredOk]
         ∧ p2.registry = some ⟨0, some (sessionTokenOf 0), none, none⟩) :=
  fun _ _ =>
    ⟨⟨rfl, rfl, rfl⟩, ⟨rfl, rfl, rfl⟩, ⟨rfl, rfl, rfl⟩, ⟨rfl, rfl, rfl⟩,
     ⟨rfl, rfl⟩⟩

/-- C6 counterexample: requestLogin, then cancelLogin, then the 120 s timer
fires. The claim says cancelLogin cancels the timer (so no later
loginTimeout) and emits loginCancelled; in the code cancelLogin only
disconnects and deletes the userClients entry, so the trace carries
loginTimeout and never loginCancelled. -/
theorem c6_counterexample :
    (let r := run (initState emptyStore []) [.reqConfirm "p", .cancel, .timer 0]
     r.trace = [.confirmationSent, .loginTimeout]
     ∧ TEvent.loginCancelled ∉ r.trace) :=
  ⟨rfl, by decide⟩

/-- C6, amended: cancelLogin disconnects the client of the current
userClients entry and deletes the entry, and nothing more — the attempt
timer stays scheduled and no event is emitted. A loginCancelled appears
only when the aborted login promise later rejects with a message containing
cancel, whose handler also clears the timer; when no such rejection
arrives, the timer still fires and emits loginTimeout. -/
theorem c6_cancel_behavior :
    (let r := run (initState emptyStore []) [.reqConfirm "p", .cancel]
     r.registry = none
     ∧ getClient r 0 = ⟨false, []⟩
     ∧ r.attempts = [⟨0, false, true, "p"⟩]
     ∧ r.trace = [.confirmationSent])
    ∧ (let r := run (initState emptyStore [])
        [.reqConfirm "p", .cancel, .confirmErr 0 "login cancelled by user"]
       r.trace = [.confirmationSent, .loginCancelled]
       ∧ r.attempts = [⟨0, true, false, "p"⟩])
    ∧ (let r := run (initState emptyStore []) [.reqConfirm "p", .cancel, .timer 0]
       r.trace = [.confirmationSent, .loginTimeout]) :=
  ⟨⟨rfl, rfl, rfl, rfl⟩, ⟨by decide, rfl⟩, rfl⟩

/-- C7 counterexample: an authenticated user with persisted token "tok"
disconnects, then runs restore. The claim says disconnect clears the
persisted token so the restore emits notConnected; in the code disconnect
only sets telegramConnected to false, the token survives, and the restore
finds it and emits restored. -/
theorem c7_counterexample :
    (let s0 := initState ⟨some "tok", true, none⟩ []
     let r1 := run s0 [.restoreReq true true, .tgDisconnect]
     let r2 := run s0 [.restoreReq true true, .tgDisconnect, .restoreReq true true]
     r1.store.telegramSession = some "tok"
     ∧ r2.trace = [.restoredOk, .disconnectedEv, .restoredOk]
     ∧ TEvent.notConnected ∉ r2.trace) :=
  ⟨rfl, rfl, by decide⟩

/-- C7, amended: for a user in Authenticated state, disconnect tears down
the external client, removes the registry entry, sets the persisted
connected flag to false but leaves the session token in the durable store,
and emits disconnected; a subsequent restore therefore still finds the
token and (with valid authorization) emits restored, not notConnected.
Generic in the token and the Channel rows. -/
theorem c7_disconnect_keeps_token :
    ∀ (t : String) (cs : List ChannelRec),
      (let s : ServerState :=
         { registry := some ⟨0, some t, none, none⟩,
           clients := [⟨true, []⟩],
           store := ⟨some t, true, none⟩, channelsDB := cs,
           attempts := [], trace := [], time := 0 }
       step s .tgDisconnect =
         { registry := none, clients := [⟨false, []⟩],
           store := ⟨some t, false, none⟩, channelsDB := cs,
           attempts := [], trace := [.disconnectedEv], time := 0 }
       ∧ (run s [.tgDisconnect, .restoreReq true true]).trace
           = [.disconnectedEv, .restoredOk]
       ∧ (run s [.tgDisconnect, .restoreReq true true]).store.telegramSession
           = some t) :=
  fun _ _ => ⟨rfl, rfl, rfl⟩

/-- C10: a disconnection of the control WebSocket leaves the whole per-user
server state untouched — the Telegram client, the registry entry, the
persisted token and the connected flag all survive — while the explicit
telegram:disconnect event does clear the persisted connected flag (and only
that flag in the durable store: the token field is untouched). -/
theorem c10_ws_disconnect_frame :
    ∀ s : ServerState,
      step s .wsDisconnect = s
      ∧ (step s .tgDisconnect).store.telegramConnected = false
      ∧ (step s .tgDisconnect).store.telegramSession = s.store.telegramSession := by
  intro s
  refine ⟨rfl, ?_, ?_⟩ <;>
    rcases hx : s.registry with _ | cd <;>
      simp [step, telegramDisconnect, hx, emit, disconnectClient, updClient]

/-- The listener-stability invariant: every client created so far carries at
most one registered message handler. -/
def handlersInv (s : ServerState) : Prop :=
  ∀ c ∈ s.clients, c.handlers.length ≤ 1

lemma getClient_handlers_le {s : ServerState} (hs : handlersInv s) (i : Nat) :
    (getClient s i).handlers.length ≤ 1 := by
  unfold getClient
  rw [List.getD_eq_getElem?_getD]
  cases h : s.clients[i]? with
  | none => exact Nat.zero_le 1
  | some c => exact hs c (List.getElem?_mem h)

lemma handlersInv_set {s : ServerState} {i : Nat} {x : ClientState}
    (hs : handlersInv s) (hx : x.handlers.length ≤ 1) :
    handlersInv { s with clients := s.clients.set i x } := by
  intro c hc
  rcases List.mem_or_eq_of_mem_set hc with h | h
  · exact hs c h
  · subst h; exact hx

lemma handlersInv_append {s : ServerState} {x : ClientState}
    (hs : handlersInv s) (hx : x.handlers.length ≤ 1) :
    handlersInv { s with clients := s.clients ++ [x] } := by
  intro c hc
  rcases List.mem_append.mp hc with h | h
  · exact hs c h
  · rw [List.mem_singleton] at h; subst h; exact hx

lemma handlersInv_start {s : ServerState} (hs : handlersInv s) (i : Nat) :
    handlersInv (startChannelListeners s i) := by
  unfold startChannelListeners updClient
  apply handlersInv_set hs
  split <;> simp

lemma handlersInv_disconnect {s : ServerState} (hs : handlersInv s) (i : Nat) :
    handlersInv (disconnectClient s i) := by
  unfold disconnectClient updClient
  exact handlersInv_set hs (getClient_handlers_le hs i)

lemma handlersInv_confirmFailCleanup {s : ServerState} (hs : handlersInv s)
    (msg : String) : handlersInv (confirmFailCleanup s msg) := by
  unfold confirmFailCleanup
  cases hreg : s.registry with
  | none => exact fun c hc => hs c hc
  | some cd => exact fun c hc => handlersInv_disconnect hs cd.client c hc

lemma clients_handleIncoming (s : ServerState) (snap : List ChannelRec)
    (chatId text : String) (f : Bool) :
    (handleIncoming s snap chatId text f).clients = s.clients := by
  unfold handleIncoming
  repeat' split
  all_goals rfl

lemma clients_foldl_handleIncoming (chatId text : String) (f : Bool) :
    ∀ (l : List (List ChannelRec)) (st : ServerState),
      (l.foldl (fun st snap => handleIncoming st snap chatId text f) st).clients
        = st.clients := by
  intro l
  induction l with
  | nil => intro st; rfl
  | cons snap t ih =>
    intro st
    rw [List.foldl_cons, ih, clients_handleIncoming]

lemma handlersInv_requestConfirmation {s : ServerState} (hs : handlersInv s)
    (p : String) : handlersInv (requestConfirmation s p) :=
  fun c hc => handlersInv_append hs (by decide) c hc

lemma handlersInv_timerFire {s : ServerState} (hs : handlersInv s) (i : Nat) :
    handlersInv (timerFire s i) := by
  unfold timerFire
  dsimp only
  split
  · exact hs
  · split
    · split
      · exact fun c hc => hs c hc
      · split
        · exact fun c hc => hs c hc
        · intro c hc
          rcases List.mem_or_eq_of_mem_set hc with h | h
          · exact hs c h
          · subst h; exact getClient_handlers_le hs _
    · exact hs

lemma handlersInv_confirmResolve {s : ServerState} (hs : handlersInv s)
    (i : Nat) : handlersInv (confirmResolve s i) := by
  unfold confirmResolve
  dsimp only
  split
  · exact hs
  · split
    · exact handlersInv_start (fun c hc => hs c hc) _
    · apply handlersInv_confirmFailCleanup
      exact fun c hc => hs c hc

lemma handlersInv_confirmReject {s : ServerState} (hs : handlersInv s)
    (i : Nat) (msg : String) : handlersInv (confirmReject s i msg) := by
  unfold confirmReject
  dsimp only
  split
  · exact hs
  · split
    · exact fun c hc => hs c hc
    · apply handlersInv_confirmFailCleanup
      exact fun c hc => hs c hc

lemma handlersInv_cancelLogin {s : ServerState} (hs : handlersInv s) :
    handlersInv (cancelLogin s) := by
  unfold cancelLogin
  cases hreg : s.registry with
  | none => exact hs
  | some cd => exact fun c hc => handlersInv_disconnect hs cd.client c hc

lemma handlersInv_restoreFresh {s : ServerState} (hs : handlersInv s)
    (tok : String) (cOk aOk : Bool) :
    handlersInv (restoreFresh s tok cOk aOk) := by
  unfold restoreFresh
  have h1 : handlersInv { s with clients :=
      s.clients ++ [({ connected := cOk, handlers := [] } : ClientState)] } :=
    handlersInv_append hs (by simp)
  split
  · exact fun c hc => h1 c hc
  · split
    · exact fun c hc => h1 c hc
    · exact handlersInv_start (fun c hc => h1 c hc) _

lemma handlersInv_restoreSession {s : ServerState} (hs : handlersInv s)
    (cOk aOk : Bool) : handlersInv (restoreSession s cOk aOk) := by
  unfold restoreSession
  split
  · exact fun c hc => hs c hc
  · split
    · split
      · exact handlersInv_start (fun c hc => hs c hc) _
      · exact handlersInv_restoreFresh hs _ _ _
    · exact handlersInv_restoreFresh hs _ _ _

lemma handlersInv_rebindIfClient {s : ServerState} (hs : handlersInv s) :
    handlersInv (rebindIfClient s) := by
  unfold rebindIfClient
  split
  · exact handlersInv_start hs _
  · exact hs

lemma handlersInv_subscribeChannel {s : ServerState} (hs : handlersInv s)
    (cid t : String) : handlersInv (subscribeChannel s cid t) := by
  unfold subscribeChannel
  split
  · split
    · exact handlersInv_rebindIfClient (fun c hc => hs c hc)
    · exact fun c hc => hs c hc
  · exact handlersInv_rebindIfClient (fun c hc => hs c hc)

lemma handlersInv_unsubscribeChannel {s : ServerState} (hs : handlersInv s)
    (cid : String) : handlersInv (unsubscribeChannel s cid) := by
  unfold unsubscribeChannel
  split
  · exact fun c hc => hs c hc
  · exact fun c hc => hs c hc

lemma handlersInv_telegramDisconnect {s : ServerState} (hs : handlersInv s) :
    handlersInv (telegramDisconnect s) := by
  unfold telegramDisconnect
  cases hreg : s.registry with
  | none => exact fun c hc => hs c hc
  | some cd => exact fun c hc => handlersInv_disconnect hs cd.client c hc

lemma handlersInv_msgArrive {s : ServerState} (hs : handlersInv s)
    (cid : Nat) (chatId text : String) (f : Bool) :
    handlersInv (msgArrive s cid chatId text f) := by
  intro c hc
  have h := clients_foldl_handleIncoming chatId text f (getClient s cid).handlers s
  unfold msgArrive at hc
  rw [h] at hc
  exact hs c hc

lemma handlersInv_step {s : ServerState} (a : Act) (hs : handlersInv s) :
    handlersInv (step s a) := by
  cases a with
  | reqConfirm p => exact handlersInv_requestConfirmation hs p
  | timer i => exact handlersInv_timerFire hs i
  | confirmOk i => exact handlersInv_confirmResolve hs i
  | confirmErr i msg => exact handlersInv_confirmReject hs i msg
  | cancel => exact handlersInv_cancelLogin hs
  | restoreReq cOk aOk => exact handlersInv_restoreSession hs cOk aOk
  | subscribe cid t => exact handlersInv_subscribeChannel hs cid t
  | unsubscribe cid => exact handlersInv_unsubscribeChannel hs cid
  | tgDisconnect => exact handlersInv_telegramDisconnect hs
  | wsDisconnect => exact hs
  | message cid chat text f => exact handlersInv_msgArrive hs cid chat text f
  | tick n => exact fun c hc => hs c hc

/-- C4, amended: across ANY sequence of events (restore and subscribe
included), every client carries at most one message handler — rebinding
always clears before installing — and a rebind installs exactly one handler
precisely when the user has at least one enabled subscription; with an
empty enabled set the rebind leaves ZERO handlers, so the never-zero half
of the claim fails (see the counterexample). -/
theorem c4_handler_invariant :
    (∀ (s : ServerState) (acts : List Act),
        handlersInv s → handlersInv (run s acts))
    ∧ (∀ (s : ServerState) (i : Nat), i < s.clients.length →
        (getClient (startChannelListeners s i) i).handlers =
          (if (s.channelsDB.filter (fun c => c.enabled)).isEmpty then []
           else [s.channelsDB.filter (fun c => c.enabled)])) := by
  constructor
  · intro s acts
    induction acts generalizing s with
    | nil => exact fun h => h
    | cons a t ih => exact fun h => ih (step s a) (handlersInv_step a h)
  · intro s i h
    unfold startChannelListeners updClient getClient
    simp [List.getD_eq_getElem?_getD, List.getElem?_set_self, h]

/-- The registry-plus-client state used to instantiate the C4 invariant. -/
def sC4 : ServerState :=
  { registry := some ⟨0, some "tok", none, none⟩, clients := [⟨true, []⟩],
    store := ⟨some "tok", true, none⟩,
    channelsDB := [⟨"100", "Alpha", true⟩],
    attempts := [], trace := [], time := 0 }

/-- C4, witness: the invariant theorem applied at a concrete state and a
concrete event sequence, and the rebind-count part applied at sC4. -/
theorem c4_handler_invariant_witness :
    handlersInv (initState emptyStore [])
    ∧ handlersInv (run (initState emptyStore [])
        [.reqConfirm "p", .confirmOk 0, .subscribe "100" "Alpha",
         .restoreReq true true])
    ∧ 0 < sC4.clients.length
    ∧ (getClient (startChannelListeners sC4 0) 0).handlers =
        (if (sC4.channelsDB.filter (fun c => c.enabled)).isEmpty then []
         else [sC4.channelsDB.filter (fun c => c.enabled)]) :=
  ⟨fun c hc => absurd hc (List.not_mem_nil c),
   c4_handler_invariant.1 (initState emptyStore []) _
     (fun c hc => absurd hc (List.not_mem_nil c)),
   by decide,
   c4_handler_invariant.2 sC4 0 (by decide)⟩

lemma msgArrive_single (s : ServerState) (cid : Nat) (snap : List ChannelRec)
    (h : (getClient s cid).handlers = [snap]) (chatId text : String)
    (f : Bool) :
    msgArrive s cid chatId text f = handleIncoming s snap chatId text f := by
  unfold msgArrive
  rw [h]
  rfl

lemma handleIncoming_match (s : ServerState) (snap : List ChannelRec)
    (ch : ChannelRec) (chatId text : String) (f : Bool)
    (hchat : (chatId == "") = false)
    (hfind : snap.find? (fun c => c.channelId == chatId) = some ch)
    (htext : (text == "") = false) :
    handleIncoming s snap chatId text f =
      emit (.procCall ch.channelId text)
        (emit (.signalReceived ch.channelId ch.title text) s) := by
  unfold handleIncoming
  rw [hfind]
  simp only [hchat, htext, Bool.false_eq_true, if_false]
  cases f <;> rfl

/-- A live session whose single installed handler closed over the enabled
subscription ("100", "Alpha"). -/
def sC8 : ServerState :=
  { registry := some ⟨0, some "tok", none, none⟩,
    clients := [⟨true, [[⟨"100", "Alpha", true⟩]]⟩],
    store := ⟨some "tok", true, none⟩,
    channelsDB := [⟨"100", "Alpha", true⟩],
    attempts := [], trace := [], time := 0 }

/-- C8: two consecutive inbound messages matching the enabled subscription,
each with an arbitrary processSignal outcome (f = true means the
processSignal promise rejects). For each message signalReceived is emitted
strictly before the processSignal invocation; the failure of the first
message is caught at the dispatch boundary, the handler stays registered
(clients unchanged) and the second message is still dispatched. -/
theorem c8_dispatch_isolation :
    ∀ (m1 m2 : String) (f1 f2 : Bool), m1 ≠ "" → m2 ≠ "" →
      (run sC8 [.message 0 "100" m1 f1, .message 0 "100" m2 f2]).trace
        = [.signalReceived "100" "Alpha" m1, .procCall "100" m1,
           .signalReceived "100" "Alpha" m2, .procCall "100" m2]
      ∧ (run sC8 [.message 0 "100" m1 f1, .message 0 "100" m2 f2]).clients
          = sC8.clients
      ∧ (run sC8 [.message 0 "100" m1 f1, .message 0 "100" m2 f2]).registry
          = sC8.registry := by
  intro m1 m2 f1 f2 h1 h2
  have hb1 : (m1 == "") = false := beq_eq_false_iff_ne.mpr h1
  have hb2 : (m2 == "") = false := beq_eq_false_iff_ne.mpr h2
  have e1 : step sC8 (.message 0 "100" m1 f1)
      = emit (.procCall "100" m1)
          (emit (.signalReceived "100" "Alpha" m1) sC8) := by
    rw [show step sC8 (.message 0 "100" m1 f1)
          = msgArrive sC8 0 "100" m1 f1 from rfl,
        msgArrive_single sC8 0 [⟨"100", "Alpha", true⟩] rfl "100" m1 f1,
        handleIncoming_match sC8 [⟨"100", "Alpha", true⟩] ⟨"100", "Alpha", true⟩
          "100" m1 f1 rfl rfl hb1]
  have e2 : step (emit (.procCall "100" m1)
        (emit (.signalReceived "100" "Alpha" m1) sC8)) (.message 0 "100" m2 f2)
      = emit (.procCall "100" m2)
          (emit (.signalReceived "100" "Alpha" m2)
            (emit (.procCall "100" m1)
              (emit (.signalReceived "100" "Alpha" m1) sC8))) := by
    rw [show step (emit (.procCall "100" m1)
          (emit (.signalReceived "100" "Alpha" m1) sC8)) (.message 0 "100" m2 f2)
          = msgArrive (emit (.procCall "100" m1)
              (emit (.signalReceived "100" "Alpha" m1) sC8)) 0 "100" m2 f2
          from rfl,
        msgArrive_single (emit (.procCall "100" m1)
            (emit (.signalReceived "100" "Alpha" m1) sC8)) 0
          [⟨"100", "Alpha", true⟩] rfl "100" m2 f2,
        handleIncoming_match (emit (.procCall "100" m1)
            (emit (.signalReceived "100" "Alpha" m1) sC8))
          [⟨"100", "Alpha", true⟩] ⟨"100", "Alpha", true⟩
          "100" m2 f2 rfl rfl hb2]
  have er : run sC8 [.message 0 "100" m1 f1, .message 0 "100" m2 f2]
      = emit (.procCall "100" m2)
          (emit (.signalReceived "100" "Alpha" m2)
            (emit (.procCall "100" m1)
              (emit (.signalReceived "100" "Alpha" m1) sC8))) := by
    rw [show run sC8 [.message 0 "100" m1 f1, .message 0 "100" m2 f2]
          = step (step sC8 (.message 0 "100" m1 f1)) (.message 0 "100" m2 f2)
          from rfl, e1, e2]
  refine ⟨?_, ?_, ?_⟩ <;> rw [er] <;> rfl

/-- C8, witness: the isolation theorem applied to concrete messages with
the first processSignal invocation rejecting. -/
theorem c8_dispatch_isolation_witness :
    "sig one" ≠ "" ∧ "sig two" ≠ "" ∧
    (run sC8 [.message 0 "100" "sig one" true,
              .message 0 "100" "sig two" false]).trace
      = [.signalReceived "100" "Alpha" "sig one", .procCall "100" "sig one",
         .signalReceived "100" "Alpha" "sig two", .procCall "100" "sig two"] :=
  ⟨by decide, by decide,
   (c8_dispatch_isolation "sig one" "sig two" true false
      (by decide) (by decide)).1⟩

/-- C9 counterexample: a userClients entry still pending (no sessionString)
whose attempt started at t = 0. At now = 130000 ms — past the 120 s
configured confirmation window — the sweep retains the entry untouched,
because its threshold is the hard-coded 10 minutes; and even at
now = 700000 ms, when it does purge the entry, it emits no loginTimeout
(the sweep emits nothing at all). The claim said every entry pending past
the configured window is forced down the handleTimeout path with
loginTimeout surfaced. -/
theorem c9_counterexample :
    cleanupInactiveClients 130000 [("u", ⟨0, none, some 0, some "p"⟩)]
      = ([("u", ⟨0, none, some 0, some "p"⟩)], [])
    ∧ cleanupInactiveClients 700000 [("u", ⟨0, none, some 0, some "p"⟩)]
      = ([], []) := by
  refine ⟨?_, ?_⟩ <;> decide

/-- C9, amended: the sweep is scheduled every 5 minutes; an entry is purged
(removed, silently — the sweep emits no event) precisely when it carries a
startTime, more than 10 minutes have elapsed, and it holds no
sessionString; every entry holding a sessionString is retained across the
sweep, as is every entry with no startTime. -/
theorem c9_cleanup_behavior :
    ∀ (now : Nat) (m : List (String × ClientData)),
      (cleanupInactiveClients now m).2 = []
      ∧ (cleanupInactiveClients now m).1
          = m.filter (fun p => !cleanupPurges now p.2)
      ∧ (∀ (u : String) (cd : ClientData), (u, cd) ∈ m →
          cd.sessionString.isSome = true →
          (u, cd) ∈ (cleanupInactiveClients now m).1)
      ∧ CLEANUP_INTERVAL_MS = 5 * 60 * 1000
      ∧ CLEANUP_TIMEOUT_MS = 10 * 60 * 1000 := by
  intro now m
  have h2 : ∀ (mm : List (String × ClientData)),
      (cleanupInactiveClients now mm).1
        = mm.filter (fun p => !cleanupPurges now p.2) := by
    intro mm
    induction mm with
    | nil => rfl
    | cons p rest ih =>
      simp only [cleanupInactiveClients, List.filter_cons]
      cases h : cleanupPurges now p.2 <;> simp [h, ih]
  have h1 : ∀ (mm : List (String × ClientData)),
      (cleanupInactiveClients now mm).2 = [] := by
    intro mm
    induction mm with
    | nil => rfl
    | cons p rest ih =>
      simp only [cleanupInactiveClients]
      cases h : cleanupPurges now p.2 <;> simp [h, ih]
  refine ⟨h1 m, h2 m, ?_, rfl, rfl⟩
  intro u cd hm hsome
  rw [h2 m]
  apply List.mem_filter.mpr
  refine ⟨hm, ?_⟩
  have hp : cleanupPurges now cd = false := by
    unfold cleanupPurges
    cases hst : cd.startTime with
    | none => rfl
    | some t =>
      cases hss : cd.sessionString with
      | none => rw [hss] at hsome; simp at hsome
      | some v => simp [hss]
  simp [hp]

/-- C9, witness: the amended theorem applied at a concrete sweep instant
and a singleton map whose entry holds a sessionString. -/
theorem c9_cleanup_behavior_witness :
    (("u", (⟨0, some "tok", some 0, none⟩ : ClientData))
        ∈ ([("u", ⟨0, some "tok", some 0, none⟩)]
            : List (String × ClientData)))
    ∧ (⟨0, some "tok", some 0, none⟩ : ClientData).sessionString.isSome = true
    ∧ ("u", (⟨0, some "tok", some 0, none⟩ : ClientData))
        ∈ (cleanupInactiveClients 700000
            [("u", ⟨0, some "tok", some 0, none⟩)]).1 :=
  ⟨by decide, rfl,
   (c9_cleanup_behavior 700000
      [("u", ⟨0, some "tok", some 0, none⟩)]).2.2.1 "u"
      ⟨0, some "tok", some 0, none⟩ (by decide) rfl⟩
